import Mathlib

/-!
Verification development for the clinical-note extraction pipeline
(structured-output normalization, terminology enrichment, FHIR-style mapping).

The definitions below shallowly embed the Python source:
  * `app/schemas.py`   — the pydantic entity graph (`StructuredNote` and friends),
  * `app/fhir_mapper.py` — `structured_to_fhir`,
  * `app/agent.py`     — `lookup_icd10`, `lookup_rxnorm`, `_enrich_with_codes`,
                          and the JSON-normalization part of `_call_llm_for_structure`.

Python dicts are embedded as insertion-ordered association lists inside a JSON
value type; Python truthiness is embedded explicitly (`pyTruthy`); external
collaborators (the HTTP terminology services and `json.loads`) are parameters
of the embedded functions.
-/

/-- JSON values, as produced by `resp.json()` / `json.loads` and as built by the
mapper.  Objects are insertion-ordered association lists, mirroring Python dicts;
numbers are integers (no claim depends on float semantics). -/
inductive JsonVal where
  | null : JsonVal
  | bool : Bool → JsonVal
  | num : Int → JsonVal
  | str : String → JsonVal
  | arr : List JsonVal → JsonVal
  | obj : List (String × JsonVal) → JsonVal

/-- First binding of a key in an association list (Python dict keys are unique,
so first = only). -/
def lookupFirst : List (String × JsonVal) → String → Option JsonVal
  | [], _ => none
  | (k0, v0) :: rest, k => if k0 = k then some v0 else lookupFirst rest k

/-- Embeds Python `d[k]` / `d.get(k)` on a JSON object; `none` for non-objects. -/
def jget (j : JsonVal) (k : String) : Option JsonVal :=
  match j with
  | .obj kvs => lookupFirst kvs k
  | _ => none

/-- Embeds Python `d[k] = v` on a dict: overwrite in place if the key exists
(:insertion order is preserved), append otherwise. -/
def dictSet : List (String × JsonVal) → String → JsonVal → List (String × JsonVal)
  | [], k, v => [(k, v)]
  | (k0, v0) :: rest, k, v =>
      if k0 = k then (k0, v) :: rest else (k0, v0) :: dictSet rest k v

/-- Embeds Python subscripting `x[i]` with a non-negative integer index, as used
by the lookup helpers: indexing a JSON array yields the element, indexing a JSON
string yields a one-character string, and everything else raises (embedded as
`none`, since the callers catch all exceptions). -/
def jIndex (j : JsonVal) (i : Nat) : Option JsonVal :=
  match j with
  | .arr xs => xs.get? i
  | .str s => (s.data.get? i).map (fun c => .str (String.mk [c]))
  | _ => none

/-- Python truthiness of a JSON value (`if x:`). -/
def pyTruthy : JsonVal → Bool
  | .null => false
  | .bool b => b
  | .num n => n != 0
  | .str s => s != ""
  | .arr xs => !xs.isEmpty
  | .obj kvs => !kvs.isEmpty

def isObjJ : JsonVal → Bool
  | .obj _ => true
  | _ => false

def isArrJ : JsonVal → Bool
  | .arr _ => true
  | _ => false

/-! ## The entity graph (`app/schemas.py`) -/

/-- `PatientInfo` of `app/schemas.py`. -/
structure PatientInfo where
  name : Option String := none
  age : Option Int := none
  sex : Option String := none
  deriving DecidableEq, Repr

/-- `Condition` of `app/schemas.py`. -/
structure Condition where
  name : String
  icd10_code : Option String := none
  deriving DecidableEq, Repr

/-- `Medication` of `app/schemas.py`. -/
structure Medication where
  name : String
  dose : Option String := none
  route : Option String := none
  frequency : Option String := none
  rxnorm_code : Option String := none
  deriving DecidableEq, Repr

/-- `VitalSign` of `app/schemas.py`. -/
structure VitalSign where
  type : String
  value : String
  unit : Option String := none
  deriving DecidableEq, Repr

/-- `LabResult` of `app/schemas.py`. -/
structure LabResult where
  name : String
  value : Option String := none
  unit : Option String := none
  deriving DecidableEq, Repr

/-- `PlanItem` of `app/schemas.py`. -/
structure PlanItem where
  description : String
  deriving DecidableEq, Repr

/-- `StructuredNote` of `app/schemas.py`. -/
structure StructuredNote where
  patient : Option PatientInfo := none
  conditions : List Condition := []
  medications : List Medication := []
  vitals : List VitalSign := []
  labs : List LabResult := []
  plan : List PlanItem := []
  deriving DecidableEq, Repr

/-! ## The mapper (`app/fhir_mapper.py`, `structured_to_fhir`)

Each resource is a JSON object whose key order mirrors the Python dict's
insertion order: the literal keys first, then the conditionally-assigned keys
in assignment order.  Conditional guards are Python truthiness (`if x:`), so an
empty string, `None`, and `0` all skip the assignment. -/

/-- Embeds `f"Patient/{patient_id}"` with the constant `patient_id = "patient-1"`:
the subject back-reference attached to every non-Patient resource. -/
def subjRef : JsonVal := .obj [("reference", JsonVal.str "Patient/patient-1")]

/-- Embeds the `if name_text:` block of `structured_to_fhir` (lines 32-34): the
`name` key appended to the patient dict when `patient.name` is truthy. -/
def nameKV : Option String → List (String × JsonVal)
  | some n => if n != "" then [("name", .arr [.obj [("text", .str n)]])] else []
  | none => []

/-- Embeds Python `str.lower()` (character-wise lowercasing; the sex vocabulary
is ASCII, where `Char.toLower` and Python agree). -/
def pyLower (s : String) : String := String.mk (s.data.map Char.toLower)

/-- Embeds the `if structured.patient.sex:` block (lines 36-41): lower-case the
sex; use it as the gender when it is in the closed set, else `"unknown"`. -/
def genderKV : Option String → List (String × JsonVal)
  | some sx =>
      if sx != "" then
        [("gender", .str (if ["male", "female", "other", "unknown"].contains (pyLower sx)
                          then pyLower sx else "unknown"))]
      else []
  | none => []

/-- Embeds the `if structured.patient.age:` block (lines 43-50): a numeric age
extension, attached only when the age is truthy (non-null and non-zero). -/
def ageKV : Option Int → List (String × JsonVal)
  | some a =>
      if a != 0 then
        [("extension", .arr [.obj
          [("url", .str "http://hl7.org/fhir/StructureDefinition/patient-age"),
           ("valueInteger", .num a)]])]
      else []
  | none => []

/-- Embeds the Patient resource construction (lines 25-52): the base dict, then
the three conditional keys, appended only when `structured.patient` is non-null
(a pydantic model instance is always truthy). -/
def patientResource : Option PatientInfo → JsonVal
  | none => .obj [("resourceType", .str "Patient"), ("id", .str "patient-1")]
  | some p => .obj ([("resourceType", .str "Patient"), ("id", .str "patient-1")]
      ++ nameKV p.name ++ genderKV p.sex ++ ageKV p.age)

/-- Embeds the Condition resource construction (lines 57-78); `idx` is the
1-based enumeration index. -/
def conditionResource (idx : Nat) (c : Condition) : JsonVal :=
  .obj [("resourceType", .str "Condition"),
        ("id", .str ("condition-" ++ toString idx)),
        ("subject", subjRef),
        ("clinicalStatus", .obj [("text", .str "active")]),
        ("verificationStatus", .obj [("text", .str "confirmed")]),
        ("code", .obj ([("text", .str c.name)] ++
          (match c.icd10_code with
           | some code =>
               if code != "" then
                 [("coding", .arr [.obj
                   [("system", .str "http://hl7.org/fhir/sid/icd-10-cm"),
                    ("code", .str code)]])]
               else []
           | none => [])))]

/-- Embeds `med_text_parts` (lines 86-90): the truthy entries of
`[med.dose, med.frequency]`, in that order. -/
def medTextParts (m : Medication) : List String :=
  (match m.dose with
   | some d => if d != "" then [d] else []
   | none => []) ++
  (match m.frequency with
   | some f => if f != "" then [f] else []
   | none => [])

/-- Embeds the `if dosage_text:` block (lines 112-117): `dosage_text =
" ".join(med_text_parts)` is truthy exactly when the part list is non-empty,
since each part is itself a truthy (non-empty) string. -/
def dosageKV (m : Medication) : List (String × JsonVal) :=
  if medTextParts m ≠ [] then
    [("dosageInstruction", .arr [.obj
      [("text", .str (String.intercalate " " (medTextParts m)))]])]
  else []

/-- Embeds the MedicationRequest resource construction (lines 83-119): the
literal dict, then the conditional `dosageInstruction` key. -/
def medicationResource (idx : Nat) (m : Medication) : JsonVal :=
  .obj ([("resourceType", .str "MedicationRequest"),
         ("id", .str ("medreq-" ++ toString idx)),
         ("subject", subjRef),
         ("status", .str "active"),
         ("intent", .str "order"),
         ("medicationCodeableConcept", .obj ([("text", .str m.name)] ++
           (match m.rxnorm_code with
            | some code =>
                if code != "" then
                  [("coding", .arr [.obj
                    [("system", .str "http://www.nlm.nih.gov/research/umls/rxnorm"),
                     ("code", .str code)]])]
                else []
            | none => [])))]
        ++ dosageKV m)

/-- Embeds the vital-sign Observation construction (lines 127-148): the value
string is `f"{value} {unit}"` when the unit is truthy, else the bare value. -/
def vitalObservation (idx : Nat) (v : VitalSign) : JsonVal :=
  .obj [("resourceType", .str "Observation"),
        ("id", .str ("observation-vital-" ++ toString idx)),
        ("status", .str "final"),
        ("subject", subjRef),
        ("code", .obj [("text", .str v.type)]),
        ("valueString", .str (match v.unit with
          | some u => if u != "" then v.value ++ " " ++ u else v.value
          | none => v.value))]

/-- Embeds Python str-formatting of an optional value: `f"{x} ..."` renders
`None` as the literal text `None`. -/
def pyFormatOptStr : Option String → String
  | none => "None"
  | some s => s

/-- Embeds the lab `value_text` computation (lines 156-158) followed by storing
it under `"valueString"`: when the unit is truthy the stored value is the
f-string `f"{value} {unit}"` (rendering a null value as `"None"`); otherwise the
original optional value is stored as-is (null when the lab value is null). -/
def labValueString (l : LabResult) : JsonVal :=
  match l.unit with
  | some u =>
      if u != "" then .str (pyFormatOptStr l.value ++ " " ++ u)
      else (match l.value with | some s => .str s | none => .null)
  | none => (match l.value with | some s => .str s | none => .null)

/-- Embeds the lab Observation construction (lines 151-171). -/
def labObservation (idx : Nat) (l : LabResult) : JsonVal :=
  .obj [("resourceType", .str "Observation"),
        ("id", .str ("observation-lab-" ++ toString idx)),
        ("status", .str "final"),
        ("subject", subjRef),
        ("code", .obj [("text", .str l.name)]),
        ("valueString", labValueString l)]

/-- Embeds `plan_descriptions` (line 179): the truthy (non-empty) descriptions
of the plan items, in input order. -/
def planDescriptions (plan : List PlanItem) : List String :=
  plan.filterMap (fun item => if item.description != "" then some item.description else none)

/-- Embeds the `if narrative_text:` block (lines 190-191): `narrative_text =
" | ".join(plan_descriptions)` is truthy exactly when the description list is
non-empty, since each entry is a truthy (non-empty) string. -/
def descriptionKV (plan : List PlanItem) : List (String × JsonVal) :=
  if planDescriptions plan ≠ [] then
    [("description", .str (String.intercalate " | " (planDescriptions plan)))]
  else []

/-- Embeds the CarePlan resource construction (lines 176-193): the literal
dict, then the `description` key appended only when `narrative_text` is truthy,
i.e. when at least one plan item has a non-empty description. -/
def carePlanResource (plan : List PlanItem) : JsonVal :=
  .obj ([("resourceType", .str "CarePlan"),
         ("id", .str "careplan-1"),
         ("subject", subjRef),
         ("status", .str "active"),
         ("intent", .str "plan")]
        ++ descriptionKV plan)

/-- Pairs each list element with its 1-based position starting at `n`: embeds
`enumerate(lst, start=n)` and equally the running `obs_counter`. -/
def enumFrom (n : Nat) : List α → List (Nat × α)
  | [] => []
  | a :: rest => (n, a) :: enumFrom (n + 1) rest

/-- Embeds the `resources` list of `structured_to_fhir` (lines 20-193), in
append order: Patient, Conditions, MedicationRequests, vital Observations, lab
Observations (the observation counter continues across the two loops), then the
CarePlan when the plan list is truthy (non-empty). -/
def fhirResources (s : StructuredNote) : List JsonVal :=
  [patientResource s.patient]
  ++ (enumFrom 1 s.conditions).map (fun p => conditionResource p.1 p.2)
  ++ (enumFrom 1 s.medications).map (fun p => medicationResource p.1 p.2)
  ++ (enumFrom 1 s.vitals).map (fun p => vitalObservation p.1 p.2)
  ++ (enumFrom (s.vitals.length + 1) s.labs).map (fun p => labObservation p.1 p.2)
  ++ (if s.plan ≠ [] then [carePlanResource s.plan] else [])

/-- Embeds the Bundle wrapping (lines 198-204) of `structured_to_fhir`. -/
def structured_to_fhir (s : StructuredNote) : JsonVal :=
  .obj [("resourceType", .str "Bundle"),
        ("type", .str "collection"),
        ("entry", .arr ((fhirResources s).map (fun r => .obj [("resource", r)])))]


/-! ## Terminology enrichment (`app/agent.py`)

The HTTP call plus `resp.raise_for_status()` plus `resp.json()` are embedded as
one collaborator function `svc` from the search term to either an error (network
failure, non-success status, undecodable body — all of which raise, and all of
which the lookup catches) or the decoded JSON body. -/

/-- Embeds `lookup_icd10` (`app/agent.py` lines 32-60): on any exception return
`none`; otherwise take `data[3]`, and if that is truthy take `results[0][0]`.
Any indexing error raises and is caught (`none`). -/
def lookup_icd10 (svc : JsonVal → Except String JsonVal) (condition_name : JsonVal) :
    Option JsonVal :=
  match svc condition_name with
  | .error _ => none
  | .ok data =>
    match jIndex data 3 with
    | none => none
    | some results =>
      if pyTruthy results then
        match jIndex results 0 with
        | none => none
        | some first =>
          match jIndex first 0 with
          | none => none
          | some code => some code
      else none

/-- Embeds `len(x)` for the JSON values that support it (`none` = `TypeError`,
which the caller catches). -/
def pyLen : JsonVal → Option Nat
  | .str s => some s.length
  | .arr xs => some xs.length
  | .obj kvs => some kvs.length
  | _ => none

/-- Embeds `lookup_rxnorm` (`app/agent.py` lines 63-85): on any exception return
`none`; otherwise `id_group = data.get("idGroup", {})` (raises unless `data` is
a dict), `rxcui = id_group.get("rxnormId")` (raises unless `id_group` is a
dict), and if `rxcui` is truthy with `len(rxcui) > 0`, return `rxcui[0]`. -/
def lookup_rxnorm (svc : JsonVal → Except String JsonVal) (med_name : JsonVal) :
    Option JsonVal :=
  match svc med_name with
  | .error _ => none
  | .ok data =>
    match data with
    | .obj kvs =>
      match (lookupFirst kvs "idGroup").getD (.obj []) with
      | .obj g =>
        match lookupFirst g "rxnormId" with
        | none => none
        | some rxcui =>
          if pyTruthy rxcui then
            match pyLen rxcui with
            | none => none
            | some _ =>
              match jIndex rxcui 0 with
              | none => none
              | some v => some v
          else none
      | _ => none
    | _ => none

/-- Embeds storing a lookup result into a dict entry: Python `None` is stored
as JSON null. -/
def optJson : Option JsonVal → JsonVal
  | none => .null
  | some v => v

/-- Embeds one iteration of the condition-enrichment loop (`_enrich_with_codes`
lines 152-156): `cond.get("name")` raises unless `cond` is a dict (uncaught, so
the embedded result is an error); a truthy name triggers the lookup and the
`cond["icd10_code"] = icd_code` assignment, otherwise the entry is untouched. -/
def enrichCondEntry (icd : JsonVal → Option JsonVal) : JsonVal → Except String JsonVal
  | .obj kvs =>
    (match lookupFirst kvs "name" with
     | some nm =>
       if pyTruthy nm then .ok (.obj (dictSet kvs "icd10_code" (optJson (icd nm))))
       else .ok (.obj kvs)
     | none => .ok (.obj kvs))
  | _ => .error "AttributeError"

/-- Embeds one iteration of the medication-enrichment loop (lines 160-164). -/
def enrichMedEntry (rx : JsonVal → Option JsonVal) : JsonVal → Except String JsonVal
  | .obj kvs =>
    (match lookupFirst kvs "name" with
     | some nm =>
       if pyTruthy nm then .ok (.obj (dictSet kvs "rxnorm_code" (optJson (rx nm))))
       else .ok (.obj kvs)
     | none => .ok (.obj kvs))
  | _ => .error "AttributeError"

/-- Embeds `struct_dict.get(key) or []` (lines 151, 159): a missing or falsy
entry defaults to the empty list. -/
def getListOrDefault (d : List (String × JsonVal)) (k : String) : JsonVal :=
  match lookupFirst d k with
  | some v => if pyTruthy v then v else .arr []
  | none => .arr []

/-- Embeds `_enrich_with_codes` (`app/agent.py` lines 145-168), parameterized by
the two terminology collaborators.  A truthy non-list `conditions`/`medications`
entry makes the `for` loop raise (uncaught `TypeError`, or `AttributeError` once
the loop yields non-dict items), embedded as an error; otherwise each list entry
is enriched independently and both keys are (re)assigned at the end. -/
def enrich_with_codes (icdSvc rxSvc : JsonVal → Except String JsonVal)
    (d : List (String × JsonVal)) : Except String (List (String × JsonVal)) :=
  match getListOrDefault d "conditions" with
  | .arr cs =>
    match cs.mapM (enrichCondEntry (lookup_icd10 icdSvc)) with
    | .error e => .error e
    | .ok cs2 =>
      match getListOrDefault d "medications" with
      | .arr ms =>
        match ms.mapM (enrichMedEntry (lookup_rxnorm rxSvc)) with
        | .error e => .error e
        | .ok ms2 =>
          .ok (dictSet (dictSet d "conditions" (.arr cs2)) "medications" (.arr ms2))
      | _ => .error "TypeError"
  | _ => .error "TypeError"

/-! ## Structured-output normalization (`app/agent.py`, `_call_llm_for_structure`)

Only the post-LLM text handling is repository logic: whitespace-strip the model
content, strip a backtick fence and an optional `json` label, then hand the text
to `json.loads` (an external collaborator, embedded as a parameter `parse`); a
parse failure raises `RuntimeError(f"Failed to parse LLM JSON: {e}\nRaw content:\n{raw}")`,
whose payload is the diagnostic together with the text `raw` held at raise time. -/

/-- Python `str.strip()` whitespace set. -/
def pyWsChar (c : Char) : Bool :=
  c = ' ' || c = '\t' || c = '\n' || c = '\r' || c = Char.ofNat 11 || c = Char.ofNat 12

/-- Strips characters satisfying `p` from both ends of a character list. -/
def stripEndsL (p : Char → Bool) (cs : List Char) : List Char :=
  ((cs.dropWhile p).reverse.dropWhile p).reverse

/-- Boolean prefix test on character lists. -/
def startsWithChars : List Char → List Char → Bool
  | [], _ => true
  | _ :: _, [] => false
  | p :: ps, c :: cs => p = c && startsWithChars ps cs

/-- Embeds the raw-text normalization of `_call_llm_for_structure` (lines
126-133): `raw = content.strip()`; if it starts with a triple backtick, strip
all backticks from both ends (`raw.strip("\x60")`), and if the result starts
with `json` case-insensitively, drop those four characters and left-strip
whitespace. -/
def normalizeRaw (content : String) : String :=
  let raw := stripEndsL pyWsChar content.data
  if startsWithChars "```".data raw then
    let r2 := stripEndsL (fun c => c = Char.ofNat 96) raw
    if startsWithChars "json".data (r2.map Char.toLower) then
      String.mk ((r2.drop 4).dropWhile pyWsChar)
    else String.mk r2
  else String.mk raw

/-- Payload of the `RuntimeError` raised on a JSON parse failure (line 140):
the `json.JSONDecodeError` diagnostic and the raw text interpolated into the
message. -/
structure ParseErr where
  diagnostic : String
  raw : String
  deriving DecidableEq, Repr

/-- Embeds the JSON-handling tail of `_call_llm_for_structure` (lines 126-142):
normalize the model content, then `json.loads` it (the collaborator `parse`);
a parse failure raises, carrying the diagnostic and the text being parsed. -/
def call_llm_for_structure (parse : String → Except String JsonVal)
    (content : String) : Except ParseErr JsonVal :=
  let raw := normalizeRaw content
  match parse raw with
  | .error e => .error ⟨e, raw⟩
  | .ok data => .ok data


/-! ## Validation (`StructuredNote(**struct_dict)`, `app/agent.py` line 179)

`extract_structured_note` validates the parsed payload by constructing the
pydantic `StructuredNote` model declared in `app/schemas.py`.  The validator
below embeds pydantic's validation of exactly those field declarations: a
missing or null optional field takes its declared default, a missing required
field or a value of an unacceptable type fails the whole construction with a
`ValidationError`.  The int-from-string lax coercion, which pydantic performs
in every major version, is modeled as Python's `int()` (`strToInt`:
whitespace-stripped, optional sign, underscores between digits); other pydantic
coercions are embedded as rejections and are not exercised by any theorem — the
failure theorems use a concrete non-coercible string and non-list scalars,
which every pydantic version rejects. -/

/-- Validates an optional `str` field: missing/null ⇒ `none` (the declared
default), a string is accepted, anything else is rejected. -/
def vOptStr : Option JsonVal → Except String (Option String)
  | none => .ok none
  | some .null => .ok none
  | some (.str s) => .ok (some s)
  | some _ => .error "str type expected"

/-- Continues an integer literal after its first digit: further digits, with a
single underscore permitted between two digits, exactly as Python's `int()`
accepts (`"4_2"` parses, `"4__2"`, `"_42"`, `"42_"` do not). -/
def parseDigitsU (acc : Nat) : List Char → Option Nat
  | [] => some acc
  | ['_'] => none
  | '_' :: c :: rest =>
      if c.isDigit then parseDigitsU (acc * 10 + (c.toNat - 48)) rest else none
  | c :: rest =>
      if c.isDigit then parseDigitsU (acc * 10 + (c.toNat - 48)) rest else none

/-- Starts an integer literal: at least one digit is required before any
underscore. -/
def parseIntDigits : List Char → Option Nat
  | c :: rest => if c.isDigit then parseDigitsU (c.toNat - 48) rest else none
  | [] => none

/-- Embeds `int(s)`, the string-to-int coercion pydantic performs in both major
versions (v1 calls `int(v)`; v2's lax mode parses the same shapes): surrounding
whitespace is stripped, then an optional sign, then digits with single
underscores permitted between digits.  Non-ASCII whitespace and digit
characters are outside the model; no theorem quantifies over the rejection
boundary, so this narrowing is never load-bearing. -/
def strToInt (s : String) : Option Int :=
  match stripEndsL pyWsChar s.data with
  | '-' :: rest => (parseIntDigits rest).map (fun n => -(n : Int))
  | '+' :: rest => (parseIntDigits rest).map (fun n => (n : Int))
  | cs => (parseIntDigits cs).map (fun n => (n : Int))

/-- Validates an optional `int` field: missing/null ⇒ `none`, a number is
accepted, an `int()`-shaped string is coerced (the pydantic lax `int` coercion,
modeled by `strToInt`), anything else is rejected. -/
def vOptInt : Option JsonVal → Except String (Option Int)
  | none => .ok none
  | some .null => .ok none
  | some (.num n) => .ok (some n)
  | some (.str s) =>
      (match strToInt s with
       | some n => .ok (some n)
       | none => .error "value is not a valid integer")
  | some _ => .error "int type expected"

/-- Validates a required `str` field: it must be present and a string. -/
def vReqStr : Option JsonVal → Except String String
  | none => .error "field required"
  | some .null => .error "none is not an allowed value"
  | some (.str s) => .ok s
  | some _ => .error "str type expected"

/-- Validates the `patient: Optional[PatientInfo]` field: missing/null ⇒ the
default `None`; a dict is validated field-wise (unknown keys ignored, as
pydantic does by default); any other value is not a valid dict. -/
def vPatient : Option JsonVal → Except String (Option PatientInfo)
  | none => .ok none
  | some .null => .ok none
  | some (.obj kvs) => do
      let nm ← vOptStr (lookupFirst kvs "name")
      let ag ← vOptInt (lookupFirst kvs "age")
      let sx ← vOptStr (lookupFirst kvs "sex")
      return some ⟨nm, ag, sx⟩
  | some _ => .error "value is not a valid dict"

/-- Validates a `List[...]` field with element validator `f`: a missing field
takes the declared default `[]`; a present value must be a list (null included
— `List` fields in the schema are not `Optional`), each element validated. -/
def vListField (f : JsonVal → Except String α) : Option JsonVal → Except String (List α)
  | none => .ok []
  | some (.arr xs) => xs.mapM f
  | some _ => .error "value is not a valid list"

/-- Validates one `Condition` payload element. -/
def vCondition : JsonVal → Except String Condition
  | .obj kvs => do
      let n ← vReqStr (lookupFirst kvs "name")
      let code ← vOptStr (lookupFirst kvs "icd10_code")
      return ⟨n, code⟩
  | _ => .error "value is not a valid dict"

/-- Validates one `Medication` payload element. -/
def vMedication : JsonVal → Except String Medication
  | .obj kvs => do
      let n ← vReqStr (lookupFirst kvs "name")
      let d ← vOptStr (lookupFirst kvs "dose")
      let r ← vOptStr (lookupFirst kvs "route")
      let f ← vOptStr (lookupFirst kvs "frequency")
      let c ← vOptStr (lookupFirst kvs "rxnorm_code")
      return ⟨n, d, r, f, c⟩
  | _ => .error "value is not a valid dict"

/-- Validates one `VitalSign` payload element. -/
def vVitalSign : JsonVal → Except String VitalSign
  | .obj kvs => do
      let t ← vReqStr (lookupFirst kvs "type")
      let v ← vReqStr (lookupFirst kvs "value")
      let u ← vOptStr (lookupFirst kvs "unit")
      return ⟨t, v, u⟩
  | _ => .error "value is not a valid dict"

/-- Validates one `LabResult` payload element. -/
def vLabResult : JsonVal → Except String LabResult
  | .obj kvs => do
      let n ← vReqStr (lookupFirst kvs "name")
      let v ← vOptStr (lookupFirst kvs "value")
      let u ← vOptStr (lookupFirst kvs "unit")
      return ⟨n, v, u⟩
  | _ => .error "value is not a valid dict"

/-- Validates one `PlanItem` payload element. -/
def vPlanItem : JsonVal → Except String PlanItem
  | .obj kvs => do
      let d ← vReqStr (lookupFirst kvs "description")
      return ⟨d⟩
  | _ => .error "value is not a valid dict"

/-- Embeds `StructuredNote(**struct_dict)`: validate the payload object against
the `StructuredNote` field declarations of `app/schemas.py`; the construction
is all-or-nothing (any field error fails the whole validation and no model
instance is produced). -/
def validateStructuredNote : JsonVal → Except String StructuredNote
  | .obj kvs => do
      let p ← vPatient (lookupFirst kvs "patient")
      let cs ← vListField vCondition (lookupFirst kvs "conditions")
      let ms ← vListField vMedication (lookupFirst kvs "medications")
      let vs ← vListField vVitalSign (lookupFirst kvs "vitals")
      let ls ← vListField vLabResult (lookupFirst kvs "labs")
      let pl ← vListField vPlanItem (lookupFirst kvs "plan")
      return ⟨p, cs, ms, vs, ls, pl⟩
  | _ => .error "value is not a valid dict"

/-- True exactly on `Except.error`. -/
def isErr : Except ε α → Bool
  | .error _ => true
  | .ok _ => false

/-- Decides whether a resource object's `resourceType` entry is the string `t`. -/
def resTypeIs (j : JsonVal) (t : String) : Bool :=
  match jget j "resourceType" with
  | some (.str s) => s == t
  | _ => false

/-- Decides whether a resource carries a `subject` entry that is exactly the
back-reference `{"reference": "Patient/patient-1"}`. -/
def hasSubjectRef (j : JsonVal) : Bool :=
  match jget j "subject" with
  | some (.obj [(k, .str v)]) => k == "reference" && v == "Patient/patient-1"
  | _ => false


/-! ## Spec-side closed forms and collaborator stubs -/

/-- Closed form of the `gender` entry produced by lines 36-41 of the mapper. -/
def genderOut : Option String → Option JsonVal
  | some sx =>
      if sx != "" then
        some (.str (if ["male", "female", "other", "unknown"].contains (pyLower sx)
                    then pyLower sx else "unknown"))
      else none
  | none => none

/-- Closed form of the `extension` entry produced by lines 43-50 of the mapper. -/
def ageExtOut : Option Int → Option JsonVal
  | some a =>
      if a != 0 then
        some (.arr [.obj
          [("url", .str "http://hl7.org/fhir/StructureDefinition/patient-age"),
           ("valueInteger", .num a)]])
      else none
  | none => none

/-- Spec-side description of what enrichment does to one entity when its lookup
yields no code: a truthy-named dict gets the code key set to JSON null, any
other entry is untouched. -/
def setCodeNull (codeKey : String) (c : JsonVal) : JsonVal :=
  match c with
  | .obj kvs =>
    (match lookupFirst kvs "name" with
     | some nm => if pyTruthy nm then .obj (dictSet kvs codeKey .null) else .obj kvs
     | none => .obj kvs)
  | _ => c

/-- Stand-in for `json.loads` always failing, as on any non-JSON text. -/
def parseAlwaysErr : String → Except String JsonVal := fun _ => .error "Expecting value"

/-- Stand-in for `json.loads` on the counterexample run: fails on the bare
open-brace text (which is not valid JSON), succeeds elsewhere. -/
def parseStub : String → Except String JsonVal := fun s =>
  if s = "\x7b" then .error "Expecting property name enclosed in double quotes"
  else .ok .null

/-! ## Helper lemmas -/

theorem filter_map_false {α : Type} (f : α → JsonVal) (p : JsonVal → Bool)
    (l : List α) (h : ∀ x, p (f x) = false) : (l.map f).filter p = [] := by
  induction l with
  | nil => rfl
  | cons a l ih => simp [List.filter_cons, h a, ih]

theorem filter_map_true {α : Type} (f : α → JsonVal) (p : JsonVal → Bool)
    (l : List α) (h : ∀ x, p (f x) = true) : (l.map f).filter p = l.map f := by
  induction l with
  | nil => rfl
  | cons a l ih => simp [List.filter_cons, h a, ih]

theorem all_map_true {α : Type} (f : α → JsonVal) (q : JsonVal → Bool)
    (l : List α) (h : ∀ x, q (f x) = true) : (l.map f).all q = true := by
  induction l with
  | nil => rfl
  | cons a l ih => simp [h a, ih]

theorem resTypeIs_patientResource (p : Option PatientInfo) :
    resTypeIs (patientResource p) "Patient" = true := by
  cases p <;> rfl

theorem patient_not_condition (p : Option PatientInfo) (t : String) (ht : t ≠ "Patient") :
    resTypeIs (patientResource p) t = false := by
  cases p <;> simp [resTypeIs, patientResource, jget, lookupFirst, ht, Ne.symm ht]

theorem hasSubjectRef_condition (i : Nat) (c : Condition) :
    hasSubjectRef (conditionResource i c) = true := rfl

theorem hasSubjectRef_medication (i : Nat) (m : Medication) :
    hasSubjectRef (medicationResource i m) = true := rfl

theorem hasSubjectRef_vital (i : Nat) (v : VitalSign) :
    hasSubjectRef (vitalObservation i v) = true := rfl

theorem hasSubjectRef_lab (i : Nat) (l : LabResult) :
    hasSubjectRef (labObservation i l) = true := rfl

theorem hasSubjectRef_careplan (plan : List PlanItem) :
    hasSubjectRef (carePlanResource plan) = true := rfl

/-! ## Claims -/

/-- C1: for every `StructuredNote` input, the mapper emits exactly one Patient
resource; it has id `patient-1`; it is the first resource (hence the first
bundle entry, as the bundle's `entry` list wraps the resources in order); and
every other emitted resource carries the subject back-reference
`Patient/patient-1`. -/
theorem c1_single_patient_resource (s : StructuredNote) :
    (fhirResources s).filter (fun r => resTypeIs r "Patient") = [patientResource s.patient]
    ∧ jget (patientResource s.patient) "id" = some (.str "patient-1")
    ∧ (fhirResources s).head? = some (patientResource s.patient)
    ∧ ((fhirResources s).tail.all hasSubjectRef) = true
    ∧ jget (structured_to_fhir s) "entry"
        = some (.arr ((fhirResources s).map (fun r => .obj [("resource", r)]))) := by
  refine ⟨?_, ?_, rfl, ?_, rfl⟩
  · show List.filter _ ([patientResource s.patient] ++ _ ++ _ ++ _ ++ _ ++ _) = _
    rw [List.filter_append, List.filter_append, List.filter_append,
      List.filter_append, List.filter_append]
    rw [filter_map_false _ _ _ (fun p => rfl),
      filter_map_false _ _ _ (fun p => rfl),
      filter_map_false _ _ _ (fun p => rfl),
      filter_map_false _ _ _ (fun p => rfl)]
    have hplan : List.filter (fun r => resTypeIs r "Patient")
        (if s.plan ≠ [] then [carePlanResource s.plan] else []) = [] := by
      by_cases h : s.plan = [] <;> simp [h, List.filter_cons]
      rfl
    rw [hplan]
    simp [List.filter_cons, resTypeIs_patientResource]
  · cases s.patient <;> rfl
  · show List.all (List.tail ([patientResource s.patient] ++ _ ++ _ ++ _ ++ _ ++ _)) _ = true
    show List.all (_ ++ _ ++ _ ++ _ ++ _) _ = true
    rw [List.all_append, List.all_append, List.all_append, List.all_append]
    simp only [List.append_eq, List.nil_append]
    rw [all_map_true (fun (p : Nat × Condition) => conditionResource p.1 p.2) hasSubjectRef _
        (fun p => hasSubjectRef_condition p.1 p.2),
      all_map_true (fun (p : Nat × Medication) => medicationResource p.1 p.2) hasSubjectRef _
        (fun p => hasSubjectRef_medication p.1 p.2),
      all_map_true (fun (p : Nat × VitalSign) => vitalObservation p.1 p.2) hasSubjectRef _
        (fun p => hasSubjectRef_vital p.1 p.2),
      all_map_true (fun (p : Nat × LabResult) => labObservation p.1 p.2) hasSubjectRef _
        (fun p => hasSubjectRef_lab p.1 p.2)]
    by_cases h : s.plan = [] <;> simp [h, hasSubjectRef_careplan]

theorem lookupFirst_append (xs ys : List (String × JsonVal)) (k : String) :
    lookupFirst (xs ++ ys) k =
      (match lookupFirst xs k with
       | some v => some v
       | none => lookupFirst ys k) := by
  induction xs with
  | nil => rfl
  | cons a xs ih =>
    obtain ⟨k0, v0⟩ := a
    by_cases h : k0 = k <;> simp [lookupFirst, h, ih]


theorem lookupFirst_nameKV (n : Option String) (k : String) (h : k ≠ "name") :
    lookupFirst (nameKV n) k = none := by
  cases n with
  | none => rfl
  | some a =>
    by_cases ha : (a != "") = true <;> simp [nameKV, ha, lookupFirst, Ne.symm h]

theorem lookupFirst_genderKV (sx : Option String) (k : String) (h : k ≠ "gender") :
    lookupFirst (genderKV sx) k = none := by
  cases sx with
  | none => rfl
  | some a =>
    by_cases ha : (a != "") = true <;> simp [genderKV, ha, lookupFirst, Ne.symm h]

theorem lookupFirst_ageKV (a : Option Int) (k : String) (h : k ≠ "extension") :
    lookupFirst (ageKV a) k = none := by
  cases a with
  | none => rfl
  | some n =>
    by_cases hn : (n != 0) = true <;> simp [ageKV, hn, lookupFirst, Ne.symm h]

theorem lookupFirst_genderKV_self (s : Option String) :
    lookupFirst (genderKV s) "gender" = genderOut s := by
  cases s with
  | none => rfl
  | some sx =>
    by_cases h : (sx != "") = true <;> simp [genderKV, genderOut, h, lookupFirst]

theorem lookupFirst_ageKV_self (a : Option Int) :
    lookupFirst (ageKV a) "extension" = ageExtOut a := by
  cases a with
  | none => rfl
  | some n =>
    by_cases h : (n != 0) = true <;> simp [ageKV, ageExtOut, h, lookupFirst]

/-- The `gender` entry of the Patient resource for a present patient record is
exactly the truthiness-guarded mapping of `structured_to_fhir` lines 36-41. -/
theorem jget_patient_gender (p : PatientInfo) :
    jget (patientResource (some p)) "gender" = genderOut p.sex := by
  show lookupFirst (_ ++ nameKV p.name ++ genderKV p.sex ++ ageKV p.age) "gender" = _
  rw [lookupFirst_append, lookupFirst_append, lookupFirst_append]
  rw [lookupFirst_nameKV p.name "gender" (by decide),
    lookupFirst_ageKV p.age "gender" (by decide),
    lookupFirst_genderKV_self p.sex]
  have hbase : lookupFirst [("resourceType", JsonVal.str "Patient"),
      ("id", JsonVal.str "patient-1")] "gender" = none := rfl
  rw [hbase]
  cases genderOut p.sex <;> rfl

/-- The `extension` entry of the Patient resource is exactly the
truthiness-guarded age extension of `structured_to_fhir` lines 43-50. -/
theorem jget_patient_extension (p : Option PatientInfo) :
    jget (patientResource p) "extension" =
      (match p with
       | none => none
       | some q => ageExtOut q.age) := by
  cases p with
  | none => rfl
  | some q =>
    show lookupFirst (_ ++ nameKV q.name ++ genderKV q.sex ++ ageKV q.age) "extension" = _
    rw [lookupFirst_append, lookupFirst_append, lookupFirst_append]
    rw [lookupFirst_nameKV q.name "extension" (by decide),
      lookupFirst_genderKV q.sex "extension" (by decide),
      lookupFirst_ageKV_self q.age]
    have hbase : lookupFirst [("resourceType", JsonVal.str "Patient"),
        ("id", JsonVal.str "patient-1")] "extension" = none := rfl
    rw [hbase]

/-- C5 (corrected): the Patient resource carries a `gender` entry exactly when
the sex is a present non-empty string, in which case it is the lower-cased sex
when that is one of `male`/`female`/`other`/`unknown` and the literal
`"unknown"` otherwise; any attached gender is in the closed vocabulary.  A
present empty-string sex (the counterexample to the claim as stated) attaches
no gender at all. -/
theorem c5_gender_closed_vocab (p : PatientInfo) :
    jget (patientResource (some p)) "gender" = genderOut p.sex
    ∧ ∀ g, jget (patientResource (some p)) "gender" = some g →
        g = .str "male" ∨ g = .str "female" ∨ g = .str "other" ∨ g = .str "unknown" := by
  refine ⟨jget_patient_gender p, ?_⟩
  intro g hg
  rw [jget_patient_gender p] at hg
  cases hp : p.sex with
  | none => rw [hp] at hg; exact absurd hg (by simp [genderOut])
  | some sx =>
    rw [hp] at hg
    by_cases hne : (sx != "") = true
    · simp only [genderOut, hne, if_true] at hg
      by_cases hc : (["male", "female", "other", "unknown"].contains (pyLower sx)) = true
      · rw [if_pos hc] at hg
        injection hg with hg'
        simp [List.contains] at hc
        rcases hc with h | h | h | h
        · exact Or.inl (by rw [← hg', h])
        · exact Or.inr (Or.inl (by rw [← hg', h]))
        · exact Or.inr (Or.inr (Or.inl (by rw [← hg', h])))
        · exact Or.inr (Or.inr (Or.inr (by rw [← hg', h])))
      · rw [if_neg hc] at hg
        injection hg with hg'
        exact Or.inr (Or.inr (Or.inr hg'.symm))
    · simp only [genderOut, hne, if_false] at hg
      exact absurd hg (by simp)

/-- C5 witness: a patient with `sex = "F"` gets gender `"unknown"`, which is in
the closed vocabulary. -/
theorem c5_gender_closed_vocab_witness :
    jget (patientResource (some ⟨none, none, some "F"⟩)) "gender"
        = some (.str "unknown")
    ∧ (JsonVal.str "unknown" = .str "male" ∨ JsonVal.str "unknown" = .str "female"
       ∨ JsonVal.str "unknown" = .str "other" ∨ JsonVal.str "unknown" = .str "unknown") := by
  have h := (c5_gender_closed_vocab ⟨none, none, some "F"⟩).1
  exact ⟨h, (c5_gender_closed_vocab ⟨none, none, some "F"⟩).2 (.str "unknown") h⟩

/-- C5 counterexample: the claim says any sex value outside the vocabulary maps
to `"unknown"`, but a present empty-string sex (falsy in Python) attaches no
gender entry at all. -/
theorem c5_gender_empty_sex_counterexample :
    jget (patientResource (some ⟨none, none, some ""⟩)) "gender" = none
    ∧ (none : Option JsonVal) ≠ some (.str "unknown") :=
  ⟨rfl, by simp⟩

/-- C6 (corrected): a present non-zero age is attached to the Patient resource
as the numeric age extension holding that age; age `0` is falsy in Python and
attaches no extension (the counterexample to the claim as stated); and no
Patient resource ever carries a `birthDate` entry. -/
theorem c6_age_extension (p : PatientInfo) (a : Int) (h : p.age = some a) (hnz : a ≠ 0) :
    jget (patientResource (some p)) "extension"
      = some (.arr [.obj
          [("url", .str "http://hl7.org/fhir/StructureDefinition/patient-age"),
           ("valueInteger", .num a)]])
    ∧ ∀ q : Option PatientInfo, jget (patientResource q) "birthDate" = none := by
  constructor
  · rw [jget_patient_extension (some p)]
    simp [ageExtOut, h, hnz]
  · intro q
    cases q with
    | none => rfl
    | some r =>
      show lookupFirst (_ ++ nameKV r.name ++ genderKV r.sex ++ ageKV r.age) "birthDate" = _
      rw [lookupFirst_append, lookupFirst_append, lookupFirst_append]
      rw [lookupFirst_nameKV r.name "birthDate" (by decide),
        lookupFirst_genderKV r.sex "birthDate" (by decide),
        lookupFirst_ageKV r.age "birthDate" (by decide)]
      rfl

/-- C6 witness: age 63 is carried in the extension. -/
theorem c6_age_extension_witness :
    (⟨none, some 63, none⟩ : PatientInfo).age = some 63
    ∧ (63 : Int) ≠ 0
    ∧ jget (patientResource (some ⟨none, some 63, none⟩)) "extension"
        = some (.arr [.obj
            [("url", .str "http://hl7.org/fhir/StructureDefinition/patient-age"),
             ("valueInteger", .num 63)]]) :=
  ⟨rfl, by decide, (c6_age_extension ⟨none, some 63, none⟩ 63 rfl (by decide)).1⟩

/-- C6 counterexample: a patient with the non-null age `0` gets no extension at
all, against the claim's "including age 0". -/
theorem c6_age_zero_counterexample :
    (⟨none, some 0, none⟩ : PatientInfo).age = some 0
    ∧ jget (patientResource (some ⟨none, some 0, none⟩)) "extension" = none :=
  ⟨rfl, rfl⟩

theorem map_enumFrom_id {α : Type} (F : Nat → α → JsonVal) (g : Nat → Option JsonVal)
    (h : ∀ i a, jget (F i a) "id" = g i) (l : List α) :
    ∀ n : Nat, ((enumFrom n l).map (fun p => F p.1 p.2)).map (fun r => jget r "id")
      = (List.range' n l.length).map g := by
  induction l with
  | nil => intro n; rfl
  | cons a l ih =>
    intro n
    simp only [enumFrom, List.map_cons, List.length_cons, List.range'_succ]
    rw [h n a, ih (n + 1)]

/-- C7: observations are emitted for all vitals first, then all labs, and their
id suffixes are a single shared counter starting at 1: vitals get
`observation-vital-1 … observation-vital-n`, labs continue with
`observation-lab-(n+1) …` where `n` is the number of vitals. -/
theorem c7_observation_counter (s : StructuredNote) :
    (fhirResources s).filter (fun r => resTypeIs r "Observation")
      = (enumFrom 1 s.vitals).map (fun p => vitalObservation p.1 p.2)
        ++ (enumFrom (s.vitals.length + 1) s.labs).map (fun p => labObservation p.1 p.2)
    ∧ ((enumFrom 1 s.vitals).map (fun p => vitalObservation p.1 p.2)
        ++ (enumFrom (s.vitals.length + 1) s.labs).map (fun p => labObservation p.1 p.2)).map
          (fun r => jget r "id")
      = (List.range' 1 s.vitals.length).map
          (fun i => some (.str ("observation-vital-" ++ toString i)))
        ++ (List.range' (s.vitals.length + 1) s.labs.length).map
          (fun i => some (.str ("observation-lab-" ++ toString i))) := by
  constructor
  · show List.filter _ ([patientResource s.patient] ++ _ ++ _ ++ _ ++ _ ++ _) = _
    rw [List.filter_append, List.filter_append, List.filter_append,
      List.filter_append, List.filter_append]
    rw [filter_map_false (fun (p : Nat × Condition) => conditionResource p.1 p.2) _ _
        (fun p => rfl),
      filter_map_false (fun (p : Nat × Medication) => medicationResource p.1 p.2) _ _
        (fun p => rfl),
      filter_map_true (fun (p : Nat × VitalSign) => vitalObservation p.1 p.2) _ _
        (fun p => rfl),
      filter_map_true (fun (p : Nat × LabResult) => labObservation p.1 p.2) _ _
        (fun p => rfl)]
    have hplan : List.filter (fun r => resTypeIs r "Observation")
        (if s.plan ≠ [] then [carePlanResource s.plan] else []) = [] := by
      by_cases h : s.plan = [] <;> simp [h, List.filter_cons]
      rfl
    rw [hplan]
    simp [List.filter_cons, patient_not_condition s.patient "Observation" (by decide)]
  · rw [List.map_append,
      map_enumFrom_id vitalObservation
        (fun i => some (.str ("observation-vital-" ++ toString i))) (fun i a => rfl)
        s.vitals 1,
      map_enumFrom_id labObservation
        (fun i => some (.str ("observation-lab-" ++ toString i))) (fun i a => rfl)
        s.labs (s.vitals.length + 1)]


theorem lookupFirst_descriptionKV (plan : List PlanItem) :
    lookupFirst (descriptionKV plan) "description"
      = (if planDescriptions plan = [] then none
         else some (.str (String.intercalate " | " (planDescriptions plan)))) := by
  by_cases h : planDescriptions plan = [] <;> simp [descriptionKV, h, lookupFirst]

/-- C8: a CarePlan resource (with id `careplan-1`) is in the bundle iff the
plan list is non-empty; its `description` entry is present iff some plan item
has a non-empty description, and then equals the non-empty descriptions joined
in input order by `" | "`. -/
theorem c8_careplan_iff (s : StructuredNote) :
    (fhirResources s).filter (fun r => resTypeIs r "CarePlan")
      = (if s.plan = [] then [] else [carePlanResource s.plan])
    ∧ jget (carePlanResource s.plan) "id" = some (.str "careplan-1")
    ∧ jget (carePlanResource s.plan) "description"
      = (if planDescriptions s.plan = [] then none
         else some (.str (String.intercalate " | " (planDescriptions s.plan))))
    ∧ (jget (carePlanResource s.plan) "description" ≠ none
        ↔ ∃ item ∈ s.plan, item.description ≠ "") := by
  have hdesc : jget (carePlanResource s.plan) "description"
      = (if planDescriptions s.plan = [] then none
         else some (.str (String.intercalate " | " (planDescriptions s.plan)))) := by
    have hsplit : jget (carePlanResource s.plan) "description"
        = lookupFirst (descriptionKV s.plan) "description" := by
      show lookupFirst (_ ++ descriptionKV s.plan) "description" = _
      rw [lookupFirst_append]
      rfl
    rw [hsplit, lookupFirst_descriptionKV]
  refine ⟨?_, rfl, hdesc, ?_⟩
  · show List.filter _ ([patientResource s.patient] ++ _ ++ _ ++ _ ++ _ ++ _) = _
    rw [List.filter_append, List.filter_append, List.filter_append,
      List.filter_append, List.filter_append]
    rw [filter_map_false (fun (p : Nat × Condition) => conditionResource p.1 p.2) _ _
        (fun p => rfl),
      filter_map_false (fun (p : Nat × Medication) => medicationResource p.1 p.2) _ _
        (fun p => rfl),
      filter_map_false (fun (p : Nat × VitalSign) => vitalObservation p.1 p.2) _ _
        (fun p => rfl),
      filter_map_false (fun (p : Nat × LabResult) => labObservation p.1 p.2) _ _
        (fun p => rfl)]
    have hplan : List.filter (fun r => resTypeIs r "CarePlan")
        (if s.plan ≠ [] then [carePlanResource s.plan] else [])
        = (if s.plan = [] then [] else [carePlanResource s.plan]) := by
      by_cases h : s.plan = [] <;> simp [h, List.filter_cons]
      rfl
    rw [hplan]
    simp [List.filter_cons, patient_not_condition s.patient "CarePlan" (by decide)]
  · rw [hdesc]
    by_cases h : planDescriptions s.plan = []
    · rw [if_pos h]
      simp only [planDescriptions, List.filterMap_eq_nil_iff] at h
      simp only [ne_eq, not_true_eq_false, false_iff, not_exists, not_and]
      intro item hitem
      have := h item hitem
      by_cases hd : (item.description != "") = true
      · rw [if_pos hd] at this; exact absurd this (by simp)
      · simpa using hd
    · rw [if_neg h]
      simp only [planDescriptions, List.filterMap_eq_nil_iff] at h
      push_neg at h
      obtain ⟨item, hitem, hne⟩ := h
      constructor
      · intro _
        refine ⟨item, hitem, ?_⟩
        intro hd
        exact hne (by simp [hd])
      · intro _
        simp

theorem lookupFirst_dosageKV (m : Medication) :
    lookupFirst (dosageKV m) "dosageInstruction"
      = (if medTextParts m = [] then none
         else some (.arr [.obj
             [("text", .str (String.intercalate " " (medTextParts m)))]])) := by
  by_cases h : medTextParts m = [] <;> simp [dosageKV, h, lookupFirst]

/-- The `dosageInstruction` entry of a MedicationRequest is exactly the
truthiness-guarded join of `[dose, frequency]` from lines 86-117 of the
mapper. -/
theorem jget_med_dosage (i : Nat) (m : Medication) :
    jget (medicationResource i m) "dosageInstruction"
      = (if medTextParts m = [] then none
         else some (.arr [.obj
             [("text", .str (String.intercalate " " (medTextParts m)))]])) := by
  have hsplit : jget (medicationResource i m) "dosageInstruction"
      = lookupFirst (dosageKV m) "dosageInstruction" := by
    show lookupFirst (_ ++ dosageKV m) "dosageInstruction" = _
    rw [lookupFirst_append]
    rfl
  rw [hsplit, lookupFirst_dosageKV]

/-- C9 (corrected): a MedicationRequest carries a dosage instruction text
exactly when `dose` or `frequency` is present and non-empty; the text joins the
truthy (present and non-empty) entries of `[dose, frequency]` with one space;
the resource does not depend on `route` at all; and the claim's example
`dose="10mg"`, `frequency="daily"`, `route="oral"` yields exactly
`"10mg daily"`.  A present empty-string dose (the counterexample to the claim
as stated, whose "present" means non-null) behaves as absent. -/
theorem c9_dosage_text (i : Nat) (m : Medication) :
    jget (medicationResource i m) "dosageInstruction"
      = (if medTextParts m = [] then none
         else some (.arr [.obj
             [("text", .str (String.intercalate " " (medTextParts m)))]]))
    ∧ (∀ r, medicationResource i { m with route := r } = medicationResource i m)
    ∧ jget (medicationResource 1
        ⟨"lisinopril", some "10mg", some "oral", some "daily", none⟩) "dosageInstruction"
      = some (.arr [.obj [("text", .str "10mg daily")]]) :=
  ⟨jget_med_dosage i m, fun _ => rfl, rfl⟩

/-- C9 counterexample: a medication whose dose is present but empty (`""`,
non-null) gets no dosage instruction, although the claim's "dose or frequency
is present" demands one with text `""`. -/
theorem c9_empty_dose_counterexample :
    (⟨"amoxicillin", some "", none, none, none⟩ : Medication).dose ≠ none
    ∧ jget (medicationResource 1 ⟨"amoxicillin", some "", none, none, none⟩)
        "dosageInstruction" = none :=
  ⟨by simp, rfl⟩

/-- C10 (corrected): for a lab result with a null value, the Observation's
`valueString` is not a rendering of the lab value: with a truthy (non-empty)
unit it is the Python f-string rendering `"None "` followed by the unit, and
with a null — or empty, the counterexample to the claim's two-way null split —
unit it is JSON null. -/
theorem c10_lab_null_value (i : Nat) (l : LabResult) (h : l.value = none) :
    jget (labObservation i l) "valueString"
      = some (match l.unit with
              | some u => if u != "" then .str ("None " ++ u) else JsonVal.null
              | none => JsonVal.null) := by
  have hval : jget (labObservation i l) "valueString" = some (labValueString l) := rfl
  rw [hval]
  cases hu : l.unit with
  | none => simp [labValueString, h, hu]
  | some u =>
    by_cases he : (u != "") = true
    · simp [labValueString, h, hu, he]
      rfl
    · simp [labValueString, h, hu, he]

/-- C10 witness: a null HbA1c value with unit `mg/dL` renders as the literal
string `"None mg/dL"`. -/
theorem c10_lab_null_value_witness :
    (⟨"HbA1c", none, some "mg/dL"⟩ : LabResult).value = none
    ∧ jget (labObservation 1 ⟨"HbA1c", none, some "mg/dL"⟩) "valueString"
        = some (.str "None mg/dL") :=
  ⟨rfl, c10_lab_null_value 1 ⟨"HbA1c", none, some "mg/dL"⟩ rfl⟩

/-- C10 counterexample: with a null value and a non-null but empty unit the
stored `valueString` is JSON null, not `"None "` followed by the unit as the
claim's "unit is non-null" case asserts. -/
theorem c10_empty_unit_counterexample :
    (⟨"Na", none, some ""⟩ : LabResult).unit ≠ none
    ∧ jget (labObservation 1 ⟨"Na", none, some ""⟩) "valueString" = some JsonVal.null
    ∧ (some JsonVal.null : Option JsonVal) ≠ some (.str "None ") :=
  ⟨by simp, rfl, by simp⟩

theorem enrichCondEntry_nullify (icd : JsonVal → Option JsonVal)
    (hicd : ∀ v, icd v = none) (c : JsonVal) (hc : isObjJ c = true) :
    enrichCondEntry icd c = .ok (setCodeNull "icd10_code" c) := by
  cases c with
  | obj kvs =>
    simp only [enrichCondEntry, setCodeNull]
    cases hn : lookupFirst kvs "name" with
    | none => rfl
    | some nm =>
      by_cases ht : pyTruthy nm = true <;> simp [ht, hicd nm, optJson]
  | null => simp [isObjJ] at hc
  | bool b => simp [isObjJ] at hc
  | num n => simp [isObjJ] at hc
  | str s => simp [isObjJ] at hc
  | arr xs => simp [isObjJ] at hc

theorem enrichMedEntry_nullify (rx : JsonVal → Option JsonVal)
    (hrx : ∀ v, rx v = none) (c : JsonVal) (hc : isObjJ c = true) :
    enrichMedEntry rx c = .ok (setCodeNull "rxnorm_code" c) := by
  cases c with
  | obj kvs =>
    simp only [enrichMedEntry, setCodeNull]
    cases hn : lookupFirst kvs "name" with
    | none => rfl
    | some nm =>
      by_cases ht : pyTruthy nm = true <;> simp [ht, hrx nm, optJson]
  | null => simp [isObjJ] at hc
  | bool b => simp [isObjJ] at hc
  | num n => simp [isObjJ] at hc
  | str s => simp [isObjJ] at hc
  | arr xs => simp [isObjJ] at hc

theorem mapM_ok_of_all (f : JsonVal → Except String JsonVal) (g : JsonVal → JsonVal)
    (hfg : ∀ c, isObjJ c = true → f c = .ok (g c)) :
    ∀ cs : List JsonVal, cs.all isObjJ = true → cs.mapM f = .ok (cs.map g) := by
  intro cs
  induction cs with
  | nil => intro h2; rfl
  | cons a cs ih =>
    intro h2
    rw [List.all_cons, Bool.and_eq_true] at h2
    rw [List.mapM_cons, hfg a h2.1]
    show Except.ok (g a) >>= _ = _
    rw [show ∀ (x : JsonVal) (k : JsonVal → Except String (List JsonVal)),
        Except.ok x >>= k = k x from fun x k => rfl]
    rw [ih h2.2]
    rfl

/-- C2: when every terminology lookup fails (any of: network error, non-success
status, malformed body, or empty result set — all of which make
`lookup_icd10`/`lookup_rxnorm` return `None`), enrichment raises no exception
(returns `ok`), every truthy-named condition gets `icd10_code = null` and every
truthy-named medication gets `rxnorm_code = null`, and the result is a
per-entity map: each entity's outcome depends only on that entity, so no
entity's failure suppresses another entity's code assignment. -/
theorem c2_enrichment_all_fail
    (icdSvc rxSvc : JsonVal → Except String JsonVal)
    (hicd : ∀ v, lookup_icd10 icdSvc v = none)
    (hrx : ∀ v, lookup_rxnorm rxSvc v = none)
    (d : List (String × JsonVal)) (cs ms : List JsonVal)
    (hc : getListOrDefault d "conditions" = .arr cs)
    (hm : getListOrDefault d "medications" = .arr ms)
    (hcobj : cs.all isObjJ = true) (hmobj : ms.all isObjJ = true) :
    enrich_with_codes icdSvc rxSvc d
      = .ok (dictSet (dictSet d "conditions" (.arr (cs.map (setCodeNull "icd10_code"))))
             "medications" (.arr (ms.map (setCodeNull "rxnorm_code")))) := by
  simp only [enrich_with_codes, hc, hm]
  rw [mapM_ok_of_all (enrichCondEntry (lookup_icd10 icdSvc)) (setCodeNull "icd10_code")
      (fun c h => enrichCondEntry_nullify _ hicd c h) cs hcobj,
    mapM_ok_of_all (enrichMedEntry (lookup_rxnorm rxSvc)) (setCodeNull "rxnorm_code")
      (fun c h => enrichMedEntry_nullify _ hrx c h) ms hmobj]

/-- C2 witness: a service that always times out yields null codes for both
conditions (the empty-named one is untouched, as it is never looked up) and the
medication, with no exception. -/
theorem c2_enrichment_all_fail_witness :
    enrich_with_codes (fun _ => .error "timeout") (fun _ => .error "timeout")
      [("patient", .null),
       ("conditions", .arr [.obj [("name", .str "hypertension")], .obj [("name", .str "")]]),
       ("medications", .arr [.obj [("name", .str "lisinopril")]])]
      = .ok [("patient", .null),
             ("conditions", .arr [.obj [("name", .str "hypertension"), ("icd10_code", .null)],
                                  .obj [("name", .str "")]]),
             ("medications", .arr [.obj [("name", .str "lisinopril"), ("rxnorm_code", .null)]])] :=
  c2_enrichment_all_fail (fun _ => .error "timeout") (fun _ => .error "timeout")
    (fun _ => rfl) (fun _ => rfl)
    [("patient", .null),
     ("conditions", .arr [.obj [("name", .str "hypertension")], .obj [("name", .str "")]]),
     ("medications", .arr [.obj [("name", .str "lisinopril")]])]
    [.obj [("name", .str "hypertension")], .obj [("name", .str "")]]
    [.obj [("name", .str "lisinopril")]]
    rfl rfl rfl rfl

/-- C3 (corrected): whenever the fence-stripped text is not valid JSON (the
parse collaborator rejects it), the normalizer fails with an error that carries
the underlying parse diagnostic together with the fence-stripped raw text (the
text held in `raw` at raise time — not the original model output, which is the
correction), and it never returns any parsed value, in particular no
silently-empty `StructuredNote`. -/
theorem c3_parse_failure (parse : String → Except String JsonVal) (content e : String)
    (h : parse (normalizeRaw content) = .error e) :
    call_llm_for_structure parse content = .error ⟨e, normalizeRaw content⟩
    ∧ ∀ d, call_llm_for_structure parse content ≠ .ok d := by
  have h1 : call_llm_for_structure parse content = .error ⟨e, normalizeRaw content⟩ := by
    show (match parse (normalizeRaw content) with
          | Except.error e => Except.error (ParseErr.mk e (normalizeRaw content))
          | Except.ok data => Except.ok data) = _
    rw [h]
  refine ⟨h1, fun d hd => ?_⟩
  rw [h1] at hd
  cases hd

/-- C3 witness: a malformed unfenced payload makes the normalizer fail with the
diagnostic and the (here unchanged) raw text. -/
theorem c3_parse_failure_witness :
    parseAlwaysErr (normalizeRaw "\x7b bad") = .error "Expecting value"
    ∧ call_llm_for_structure parseAlwaysErr "\x7b bad"
        = .error ⟨"Expecting value", "\x7b bad"⟩ :=
  ⟨rfl, (c3_parse_failure parseAlwaysErr "\x7b bad" "Expecting value" rfl).1⟩

/-- C3 counterexample: for the fenced malformed payload ```` ```json\n{ ````
the raised error carries the fence-stripped text `"{"`, which is not the
original raw text, against the claim's "carries the original raw text". -/
theorem c3_raw_text_counterexample :
    call_llm_for_structure parseStub "```json\n\x7b"
      = .error ⟨"Expecting property name enclosed in double quotes", "\x7b"⟩
    ∧ ("\x7b" : String) ≠ "```json\n\x7b" :=
  ⟨rfl, by decide⟩

theorem except_bind_ok {α β : Type} (a : α) (f : α → Except String β) :
    (Except.ok a >>= f) = f a := rfl

theorem except_bind_err {α β : Type} (e : String) (f : α → Except String β) :
    ((Except.error e : Except String α) >>= f) = .error e := rfl

/-- C4 (corrected): a field present with a wrong primitive type that pydantic
does not coerce fails the whole validation — shown for a list field given any
non-list value and for an age given the non-coercible string `"forty"` (which
`int()` rejects in every pydantic version) — producing an error and no
`StructuredNote` at all; every absent field takes its declared default (`None`
for the optional patient, `[]` for the collections).  The correction: pydantic
coerces an `int()`-shaped string for an `int` field, so "age given as a string"
does not always fail (see the counterexample). -/
theorem c4_validation_all_or_nothing (kvs : List (String × JsonVal)) :
    (∀ v, lookupFirst kvs "conditions" = some v → isArrJ v = false →
        isErr (validateStructuredNote (.obj kvs)) = true)
    ∧ (∀ pkvs, lookupFirst kvs "patient" = some (.obj pkvs) →
        lookupFirst pkvs "age" = some (.str "forty") →
        isErr (validateStructuredNote (.obj kvs)) = true)
    ∧ validateStructuredNote (.obj []) = .ok ⟨none, [], [], [], [], []⟩ := by
  refine ⟨?_, ?_, rfl⟩
  · intro v hv hva
    cases hp : vPatient (lookupFirst kvs "patient") with
    | error e => simp [validateStructuredNote, hp, except_bind_err, isErr]
    | ok p =>
      have hlist : vListField vCondition (lookupFirst kvs "conditions")
          = .error "value is not a valid list" := by
        rw [hv]
        cases v with
        | arr xs => simp [isArrJ] at hva
        | null => rfl
        | bool b => rfl
        | num n => rfl
        | str s => rfl
        | obj o => rfl
      simp [validateStructuredNote, hp, hlist, except_bind_ok, except_bind_err, isErr]
  · intro pkvs hpk hage
    have hpErr : isErr (vPatient (lookupFirst kvs "patient")) = true := by
      rw [hpk]
      simp only [vPatient]
      cases hnm : vOptStr (lookupFirst pkvs "name") with
      | error e => rw [except_bind_err]; rfl
      | ok nm =>
        rw [except_bind_ok]
        have hagev : vOptInt (lookupFirst pkvs "age")
            = .error "value is not a valid integer" := by
          rw [hage]
          rfl
        rw [hagev, except_bind_err]
        rfl
    cases hpv : vPatient (lookupFirst kvs "patient") with
    | error e => simp [validateStructuredNote, hpv, except_bind_err, isErr]
    | ok p => rw [hpv] at hpErr; simp [isErr] at hpErr

/-- C4 witness: a scalar `conditions` entry and a non-numeric string age each
fail the whole validation. -/
theorem c4_validation_all_or_nothing_witness :
    lookupFirst [("conditions", JsonVal.num 3)] "conditions" = some (.num 3)
    ∧ isErr (validateStructuredNote (.obj [("conditions", .num 3)])) = true
    ∧ isErr (validateStructuredNote (.obj [("patient", .obj [("age", .str "forty")])])) = true :=
  ⟨rfl,
   (c4_validation_all_or_nothing [("conditions", .num 3)]).1 (.num 3) rfl rfl,
   (c4_validation_all_or_nothing [("patient", .obj [("age", .str "forty")])]).2.1
     [("age", .str "forty")] rfl rfl⟩

/-- C4 counterexample: an age present as the string `"42"` — the claim's own
example of a wrongly-typed field — is coerced to the integer 42 and validation
succeeds, instead of failing with a validation error. -/
theorem c4_string_age_coerced_counterexample :
    validateStructuredNote (.obj [("patient", .obj [("age", .str "42")])])
      = .ok ⟨some ⟨none, some 42, none⟩, [], [], [], [], []⟩
    ∧ isErr (validateStructuredNote (.obj [("patient", .obj [("age", .str "42")])])) = false :=
  ⟨rfl, rfl⟩

/-! ## Concrete evaluations -/

example :
    jget (patientResource (some { sex := some "F" })) "gender"
      = some (.str "unknown") := rfl

example :
    jget (patientResource (some { sex := some "MALE" })) "gender"
      = some (.str "male") := rfl

example :
    jget (medicationResource 1
      { name := "lisinopril", dose := some "10mg", route := some "oral",
        frequency := some "daily" }) "dosageInstruction"
      = some (.arr [.obj [("text", .str "10mg daily")]]) := rfl

example :
    jget (labObservation 3 { name := "HbA1c", value := none, unit := some "%" })
      "valueString" = some (.str "None %") := rfl

example : normalizeRaw "```json\n \x7b\x7d ```" = "\x7b\x7d " := rfl

example : normalizeRaw "  \x7b\x7d\n" = "\x7b\x7d" := rfl

example : normalizeRaw "```json\n\x7b" = "\x7b" := rfl

example : validateStructuredNote (.obj []) = .ok ⟨none, [], [], [], [], []⟩ := rfl

example :
    validateStructuredNote (.obj [("patient", .obj [("age", .str "42")])])
      = .ok ⟨some ⟨none, some 42, none⟩, [], [], [], [], []⟩ := rfl

example : isErr (validateStructuredNote (.obj [("conditions", .num 3)])) = true := rfl

example :
    isErr (validateStructuredNote
      (.obj [("patient", .obj [("age", .str "forty")])])) = true := rfl

example :
    ((fhirResources
        { vitals := [⟨"blood pressure", "140/90", some "mmHg"⟩, ⟨"heart rate", "72", none⟩],
          labs := [⟨"HbA1c", some "7.2", some "%"⟩, ⟨"LDL", some "130", some "mg/dL"⟩] }).filter
      (fun r => resTypeIs r "Observation")).map (fun r => jget r "id")
    = [some (.str "observation-vital-1"), some (.str "observation-vital-2"),
       some (.str "observation-lab-3"), some (.str "observation-lab-4")] := rfl


example : strToInt " 42 " = some 42 := rfl
example : strToInt "4_2" = some 42 := rfl
example : strToInt "+42" = some 42 := rfl
example : strToInt " -42" = some (-42) := rfl
example : strToInt "4__2" = none := rfl
example : strToInt "_42" = none := rfl
example : strToInt "42_" = none := rfl
example : strToInt "forty" = none := rfl
example : strToInt "" = none := rfl
example :
    validateStructuredNote (.obj [("patient", .obj [("age", .str " 42")])])
      = .ok ⟨some ⟨none, some 42, none⟩, [], [], [], [], []⟩ := rfl
example :
    validateStructuredNote (.obj [("patient", .obj [("age", .str "4_2")])])
      = .ok ⟨some ⟨none, some 42, none⟩, [], [], [], [], []⟩ := rfl
